import Mathlib

/-!
Shallow embedding of the discogo metrics aggregator and error classifier.

Sources: the metrics package (Metrics registry, RateWindow, Summary) and the
errors package (ErrorType, BotError, FromHTTPStatus).  Go `time.Time` and
`time.Duration` are modelled as `Int` nanosecond counts; Go `float64`
computations on counter values are modelled exactly in `ℚ`; Go `int64`
counters are modelled as `Int` (the claims under study do not depend on
64-bit wraparound).  Methods that take a wall-clock reading receive the
reading as an explicit parameter, one per `time.Now()` call in the source.
-/

namespace Discogo

/-- The closed enumeration of error categories from the errors package. -/
inductive ErrorType where
  | api
  | config
  | discord
  | validation
  | notFound
  | rateLimit
  | network
  | internal
deriving DecidableEq

/-- BotError: a categorized error.  The Go struct also carries a Cause and a
Context map; only the fields relevant to classification are modelled
(`typ` stands for the Go field `Type`, which is a reserved word in Lean). -/
structure BotError where
  typ : ErrorType
  message : String
deriving DecidableEq

def NewAPIError (message : String) : BotError :=
  { typ := ErrorType.api, message := message }

def NewConfigError (message : String) : BotError :=
  { typ := ErrorType.config, message := message }

def NewDiscordError (message : String) : BotError :=
  { typ := ErrorType.discord, message := message }

def NewValidationError (message : String) : BotError :=
  { typ := ErrorType.validation, message := message }

def NewNotFoundError (message : String) : BotError :=
  { typ := ErrorType.notFound, message := message }

/-- NewRateLimitError: the Go version stores retryAfter in the Context map,
which does not affect classification. -/
def NewRateLimitError (message : String) (_retryAfter : Int) : BotError :=
  { typ := ErrorType.rateLimit, message := message }

def NewNetworkError (message : String) : BotError :=
  { typ := ErrorType.network, message := message }

def NewInternalError (message : String) : BotError :=
  { typ := ErrorType.internal, message := message }

/-- FromHTTPStatus: the switch over the status code, cases in source order
(404, 429, 400 <= s < 500, s >= 500, default). -/
def FromHTTPStatus (statusCode : Int) (message : String) : BotError :=
  if statusCode = 404 then NewNotFoundError message
  else if statusCode = 429 then NewRateLimitError message 0
  else if 400 ≤ statusCode ∧ statusCode < 500 then NewValidationError message
  else if 500 ≤ statusCode then NewAPIError message
  else NewInternalError message

/-- A Go error value as seen by errors.As: either a BotError pointer (whose
Unwrap returns its cause) or some other error value with an optional
wrapped cause. -/
inductive GoError where
  | wrap (b : BotError) (cause : Option GoError)
  | plain (cause : Option GoError)

/-- errors.As with a BotError target: check the value itself, then walk the
Unwrap chain. -/
def findBotError : GoError → Option BotError
  | GoError.wrap b _ => some b
  | GoError.plain (some e) => findBotError e
  | GoError.plain none => none

/-- The classification performed by metrics.RecordError: the found BotError
carries the category, anything else is internal. -/
def classifyError (e : GoError) : ErrorType :=
  match findBotError e with
  | some b => b.typ
  | none => ErrorType.internal

/-- Duration.Seconds(): nanoseconds to seconds, exactly in ℚ. -/
def seconds (d : Int) : ℚ := (d : ℚ) / 1000000000

/-- RateWindow: events are timestamps (ns), window is a duration (ns). -/
structure RateWindow where
  events : List Int
  window : Int
deriving DecidableEq

/-- NewRateWindow stores the duration as given; no validation. -/
def NewRateWindow (window : Int) : RateWindow :=
  { events := [], window := window }

/-- RateWindow.Add: append the event, then keep only events strictly after
timestamp - window (event.After(cutoff)). -/
def RateWindow.Add (rw : RateWindow) (timestamp : Int) : RateWindow :=
  let events := rw.events ++ [timestamp]
  let cutoff := timestamp - rw.window
  let validEvents := events.filter (fun event => decide (cutoff < event))
  { rw with events := validEvents }

/-- RateWindow.Rate as a state transformer (window state out, rate out).
The body reads rw.events but never reassigns it: it only counts the events
strictly after now - window, despite the source comment that says
expired events are removed. -/
def RateWindow.RateST (rw : RateWindow) (now : Int) : RateWindow × ℚ :=
  if rw.events.length = 0 then (rw, 0)
  else
    let cutoff := now - rw.window
    let validEvents : Nat :=
      rw.events.foldl (fun n event => if cutoff < event then n + 1 else n) 0
    let windowSeconds := seconds rw.window
    (rw, (validEvents : ℚ) / windowSeconds)

/-- The value returned by RateWindow.Rate. -/
def RateWindow.Rate (rw : RateWindow) (now : Int) : ℚ :=
  (rw.RateST now).2

/-- The ErrorsByType Go map, as an association list with lookup default 0
(a Go map read returns the zero value for an absent key). -/
def mapGet (l : List (ErrorType × Int)) (k : ErrorType) : Int :=
  match l with
  | [] => 0
  | p :: rest => if p.1 = k then p.2 else mapGet rest k

/-- Go map store m[k] = v: overwrite the entry if present, insert otherwise. -/
def mapSet (l : List (ErrorType × Int)) (k : ErrorType) (v : Int) :
    List (ErrorType × Int) :=
  match l with
  | [] => [(k, v)]
  | p :: rest => if p.1 = k then (k, v) :: rest else p :: mapSet rest k v

/-- Go m[k]++ : read (default 0), add one, store. -/
def mapIncr (l : List (ErrorType × Int)) (k : ErrorType) :
    List (ErrorType × Int) :=
  mapSet l k (mapGet l k + 1)

/-- The Metrics registry struct. -/
structure Metrics where
  CommandsTotal : Int
  CommandsSuccessful : Int
  CommandsFailed : Int
  CommandsPerSecond : ℚ
  APIRequestsTotal : Int
  APIRequestsSuccessful : Int
  APIRequestsFailed : Int
  APIRequestsPerSecond : ℚ
  APIResponseTimeSum : Int
  APIResponseCount : Int
  ErrorsByType : List (ErrorType × Int)
  BotStartTime : Int
  commandWindow : RateWindow
  apiWindow : RateWindow
deriving DecidableEq

/-- The registry built by the one-time global construction: explicit fields
from the source, Go zero values for the rest, 60-second windows. -/
def initMetrics (startTime : Int) : Metrics :=
  { CommandsTotal := 0
    CommandsSuccessful := 0
    CommandsFailed := 0
    CommandsPerSecond := 0
    APIRequestsTotal := 0
    APIRequestsSuccessful := 0
    APIRequestsFailed := 0
    APIRequestsPerSecond := 0
    APIResponseTimeSum := 0
    APIResponseCount := 0
    ErrorsByType := []
    BotStartTime := startTime
    commandWindow := NewRateWindow 60000000000
    apiWindow := NewRateWindow 60000000000 }

/-- IncrementCommands: now is the time.Now() read at entry (passed to
commandWindow.Add); nowR is the time.Now() read inside the subsequent
commandWindow.Rate() call. -/
def IncrementCommands (m : Metrics) (successful : Bool) (now nowR : Int) :
    Metrics :=
  let m1 := { m with
    CommandsTotal := m.CommandsTotal + 1
    CommandsSuccessful :=
      if successful then m.CommandsSuccessful + 1 else m.CommandsSuccessful
    CommandsFailed :=
      if successful then m.CommandsFailed else m.CommandsFailed + 1 }
  let cw := m1.commandWindow.Add now
  let r := cw.RateST nowR
  { m1 with commandWindow := r.1, CommandsPerSecond := r.2 }

/-- IncrementAPIRequests: counter updates, response-time accumulation
(the value is added as given), then window add and rate refresh. -/
def IncrementAPIRequests (m : Metrics) (successful : Bool)
    (responseTimeMs : Int) (now nowR : Int) : Metrics :=
  let m1 := { m with
    APIRequestsTotal := m.APIRequestsTotal + 1
    APIRequestsSuccessful :=
      if successful then m.APIRequestsSuccessful + 1
      else m.APIRequestsSuccessful
    APIRequestsFailed :=
      if successful then m.APIRequestsFailed else m.APIRequestsFailed + 1
    APIResponseTimeSum := m.APIResponseTimeSum + responseTimeMs
    APIResponseCount := m.APIResponseCount + 1 }
  let aw := m1.apiWindow.Add now
  let r := aw.RateST nowR
  { m1 with apiWindow := r.1, APIRequestsPerSecond := r.2 }

/-- IncrementError: m.ErrorsByType[errorType]++ under the lock. -/
def IncrementError (m : Metrics) (errorType : ErrorType) : Metrics :=
  { m with ErrorsByType := mapIncr m.ErrorsByType errorType }

/-- GetAverageResponseTime: sum / count, or 0.0 when count is zero. -/
def GetAverageResponseTime (m : Metrics) : ℚ :=
  if m.APIResponseCount = 0 then 0
  else (m.APIResponseTimeSum : ℚ) / (m.APIResponseCount : ℚ)

/-- The Summary value object.  BotStartTime is kept as the raw timestamp
(the source formats it as an RFC3339 string). -/
structure Summary where
  CommandsTotal : Int
  CommandsSuccessful : Int
  CommandsFailed : Int
  CommandsPerSecond : ℚ
  CommandSuccessRate : ℚ
  APIRequestsTotal : Int
  APIRequestsSuccessful : Int
  APIRequestsFailed : Int
  APIRequestsPerSecond : ℚ
  APISuccessRate : ℚ
  AverageResponseTime : ℚ
  ErrorsByType : List (ErrorType × Int)
  UptimeSeconds : ℚ
  BotStartTime : Int
deriving DecidableEq

/-- GetSummary: copy the error map entry by entry into a fresh map, fill the
summary fields, then compute the guarded percentages and average.
`now` is the wall-clock reading used for the uptime field. -/
def GetSummary (m : Metrics) (now : Int) : Summary :=
  let errorsByType :=
    m.ErrorsByType.foldl (fun acc p => mapSet acc p.1 p.2) []
  let summary : Summary := {
    CommandsTotal := m.CommandsTotal
    CommandsSuccessful := m.CommandsSuccessful
    CommandsFailed := m.CommandsFailed
    CommandsPerSecond := m.CommandsPerSecond
    CommandSuccessRate := 0
    APIRequestsTotal := m.APIRequestsTotal
    APIRequestsSuccessful := m.APIRequestsSuccessful
    APIRequestsFailed := m.APIRequestsFailed
    APIRequestsPerSecond := m.APIRequestsPerSecond
    APISuccessRate := 0
    AverageResponseTime := 0
    ErrorsByType := errorsByType
    UptimeSeconds := seconds (now - m.BotStartTime)
    BotStartTime := m.BotStartTime }
  let commandSuccessRate : ℚ :=
    if summary.CommandsTotal > 0 then
      ((summary.CommandsSuccessful : ℚ) / (summary.CommandsTotal : ℚ)) * 100
    else 0
  let apiSuccessRate : ℚ :=
    if summary.APIRequestsTotal > 0 then
      ((summary.APIRequestsSuccessful : ℚ) / (summary.APIRequestsTotal : ℚ)) * 100
    else 0
  let averageResponseTime : ℚ :=
    if m.APIResponseCount > 0 then
      (m.APIResponseTimeSum : ℚ) / (m.APIResponseCount : ℚ)
    else 0
  { summary with
    CommandSuccessRate := commandSuccessRate
    APISuccessRate := apiSuccessRate
    AverageResponseTime := averageResponseTime }

/-- GetSummary as a state transformer: the method body only reads the
registry (no field of m is assigned), so the registry state passes through
unchanged. -/
def GetSummaryST (m : Metrics) (now : Int) : Metrics × Summary :=
  (m, GetSummary m now)

/-- RecordError: classify the error value, then increment that category. -/
def RecordError (m : Metrics) (err : GoError) : Metrics :=
  IncrementError m (classifyError err)

/-- One recording operation on the registry, with the wall-clock readings
each operation performs. -/
inductive MetricsOp where
  | cmd (successful : Bool) (now nowR : Int)
  | apiReq (successful : Bool) (responseTimeMs : Int) (now nowR : Int)
  | errInc (errorType : ErrorType)

/-- Apply one recording operation. -/
def stepOp (m : Metrics) : MetricsOp → Metrics
  | MetricsOp.cmd successful now nowR => IncrementCommands m successful now nowR
  | MetricsOp.apiReq successful ms now nowR =>
      IncrementAPIRequests m successful ms now nowR
  | MetricsOp.errInc errorType => IncrementError m errorType

/-- Apply a sequence of recording operations. -/
def runOps (m : Metrics) (ops : List MetricsOp) : Metrics :=
  ops.foldl stepOp m

/-- A sequence of recordCommand calls alone (argument, then the two clock
readings of each call). -/
def runCommands (m : Metrics) (calls : List (Bool × Int × Int)) : Metrics :=
  calls.foldl (fun acc c => IncrementCommands acc c.1 c.2.1 c.2.2) m

/-! Projection facts for the recording operations. -/

@[simp] lemma incCmd_CommandsTotal (m : Metrics) (s : Bool) (t tR : Int) :
    (IncrementCommands m s t tR).CommandsTotal = m.CommandsTotal + 1 := rfl

@[simp] lemma incCmd_CommandsSuccessful (m : Metrics) (s : Bool) (t tR : Int) :
    (IncrementCommands m s t tR).CommandsSuccessful =
      if s then m.CommandsSuccessful + 1 else m.CommandsSuccessful := rfl

@[simp] lemma incCmd_CommandsFailed (m : Metrics) (s : Bool) (t tR : Int) :
    (IncrementCommands m s t tR).CommandsFailed =
      if s then m.CommandsFailed else m.CommandsFailed + 1 := rfl

@[simp] lemma incCmd_APIRequestsTotal (m : Metrics) (s : Bool) (t tR : Int) :
    (IncrementCommands m s t tR).APIRequestsTotal = m.APIRequestsTotal := rfl

@[simp] lemma incCmd_APIRequestsSuccessful (m : Metrics) (s : Bool) (t tR : Int) :
    (IncrementCommands m s t tR).APIRequestsSuccessful =
      m.APIRequestsSuccessful := rfl

@[simp] lemma incCmd_APIRequestsFailed (m : Metrics) (s : Bool) (t tR : Int) :
    (IncrementCommands m s t tR).APIRequestsFailed = m.APIRequestsFailed := rfl

@[simp] lemma incAPI_APIRequestsTotal (m : Metrics) (s : Bool) (ms t tR : Int) :
    (IncrementAPIRequests m s ms t tR).APIRequestsTotal =
      m.APIRequestsTotal + 1 := rfl

@[simp] lemma incAPI_APIRequestsSuccessful (m : Metrics) (s : Bool)
    (ms t tR : Int) :
    (IncrementAPIRequests m s ms t tR).APIRequestsSuccessful =
      if s then m.APIRequestsSuccessful + 1 else m.APIRequestsSuccessful := rfl

@[simp] lemma incAPI_APIRequestsFailed (m : Metrics) (s : Bool) (ms t tR : Int) :
    (IncrementAPIRequests m s ms t tR).APIRequestsFailed =
      if s then m.APIRequestsFailed else m.APIRequestsFailed + 1 := rfl

@[simp] lemma incAPI_CommandsTotal (m : Metrics) (s : Bool) (ms t tR : Int) :
    (IncrementAPIRequests m s ms t tR).CommandsTotal = m.CommandsTotal := rfl

@[simp] lemma incAPI_CommandsSuccessful (m : Metrics) (s : Bool) (ms t tR : Int) :
    (IncrementAPIRequests m s ms t tR).CommandsSuccessful =
      m.CommandsSuccessful := rfl

@[simp] lemma incAPI_CommandsFailed (m : Metrics) (s : Bool) (ms t tR : Int) :
    (IncrementAPIRequests m s ms t tR).CommandsFailed = m.CommandsFailed := rfl

@[simp] lemma incErr_CommandsTotal (m : Metrics) (c : ErrorType) :
    (IncrementError m c).CommandsTotal = m.CommandsTotal := rfl

@[simp] lemma incErr_CommandsSuccessful (m : Metrics) (c : ErrorType) :
    (IncrementError m c).CommandsSuccessful = m.CommandsSuccessful := rfl

@[simp] lemma incErr_CommandsFailed (m : Metrics) (c : ErrorType) :
    (IncrementError m c).CommandsFailed = m.CommandsFailed := rfl

@[simp] lemma incErr_APIRequestsTotal (m : Metrics) (c : ErrorType) :
    (IncrementError m c).APIRequestsTotal = m.APIRequestsTotal := rfl

@[simp] lemma incErr_APIRequestsSuccessful (m : Metrics) (c : ErrorType) :
    (IncrementError m c).APIRequestsSuccessful = m.APIRequestsSuccessful := rfl

@[simp] lemma incErr_APIRequestsFailed (m : Metrics) (c : ErrorType) :
    (IncrementError m c).APIRequestsFailed = m.APIRequestsFailed := rfl

/-! The counter-group consistency invariant and its preservation. -/

/-- Within each counter group, total equals successes plus failures and
both parts are non-negative. -/
def countersConsistent (m : Metrics) : Prop :=
  m.CommandsTotal = m.CommandsSuccessful + m.CommandsFailed ∧
  0 ≤ m.CommandsSuccessful ∧ 0 ≤ m.CommandsFailed ∧
  m.APIRequestsTotal = m.APIRequestsSuccessful + m.APIRequestsFailed ∧
  0 ≤ m.APIRequestsSuccessful ∧ 0 ≤ m.APIRequestsFailed

lemma countersConsistent_init (startTime : Int) :
    countersConsistent (initMetrics startTime) := by
  refine ⟨rfl, le_refl 0, le_refl 0, rfl, le_refl 0, le_refl 0⟩

lemma stepOp_preserves (m : Metrics) (op : MetricsOp)
    (h : countersConsistent m) : countersConsistent (stepOp m op) := by
  obtain ⟨h1, h2, h3, h4, h5, h6⟩ := h
  cases op with
  | cmd s now nowR =>
      cases s <;> simp [stepOp, countersConsistent] <;> omega
  | apiReq s ms now nowR =>
      cases s <;> simp [stepOp, countersConsistent] <;> omega
  | errInc c =>
      simp [stepOp, countersConsistent]
      omega

lemma runOps_cons (m : Metrics) (op : MetricsOp) (ops : List MetricsOp) :
    runOps m (op :: ops) = runOps (stepOp m op) ops := rfl

lemma runOps_consistent (ops : List MetricsOp) (m : Metrics)
    (h : countersConsistent m) : countersConsistent (runOps m ops) := by
  induction ops generalizing m with
  | nil => exact h
  | cons op rest ih => exact ih _ (stepOp_preserves m op h)

lemma runCommands_cons (m : Metrics) (c : Bool × Int × Int)
    (calls : List (Bool × Int × Int)) :
    runCommands m (c :: calls) =
      runCommands (IncrementCommands m c.1 c.2.1 c.2.2) calls := rfl

lemma runCommands_inv (calls : List (Bool × Int × Int)) (m : Metrics)
    (h : m.CommandsTotal = m.CommandsSuccessful + m.CommandsFailed) :
    (runCommands m calls).CommandsTotal =
      (runCommands m calls).CommandsSuccessful +
        (runCommands m calls).CommandsFailed := by
  induction calls generalizing m with
  | nil => exact h
  | cons c rest ih =>
      rw [runCommands_cons]
      refine ih _ ?_
      cases hc : c.1 <;> simp <;> omega

/-- C1: for every sequence of recordCommand (IncrementCommands) calls with
arbitrary boolean arguments and clock readings, at every observation point
(i.e. after every such sequence from the initial registry) the registry
satisfies CommandsTotal = CommandsSuccessful + CommandsFailed. -/
theorem recordCommand_total_consistency (startTime : Int)
    (calls : List (Bool × Int × Int)) :
    (runCommands (initMetrics startTime) calls).CommandsTotal =
      (runCommands (initMetrics startTime) calls).CommandsSuccessful +
        (runCommands (initMetrics startTime) calls).CommandsFailed :=
  runCommands_inv calls (initMetrics startTime) rfl

/-! Association-map lemmas for the ErrorsByType model. -/

lemma mapGet_mapSet (l : List (ErrorType × Int)) (k : ErrorType) (v : Int)
    (k2 : ErrorType) :
    mapGet (mapSet l k v) k2 = if k = k2 then v else mapGet l k2 := by
  induction l with
  | nil => simp [mapGet, mapSet]
  | cons p rest ih =>
      by_cases hp : p.1 = k
      · subst hp
        by_cases hk : p.1 = k2 <;> simp [mapGet, mapSet, hk]
      · by_cases hk : p.1 = k2
        · subst hk
          simp [mapGet, mapSet, hp]
          rw [if_neg (fun he => hp he.symm)]
        · simp [mapGet, mapSet, hp, hk, ih]

lemma mapGet_mapIncr_same (l : List (ErrorType × Int)) (k : ErrorType) :
    mapGet (mapIncr l k) k = mapGet l k + 1 := by
  simp [mapIncr, mapGet_mapSet]

lemma mapGet_mapIncr_ne (l : List (ErrorType × Int)) (k k2 : ErrorType)
    (h : k ≠ k2) : mapGet (mapIncr l k) k2 = mapGet l k2 := by
  simp [mapIncr, mapGet_mapSet, h]

lemma iterate_incrementError (n : Nat) (m : Metrics) (c : ErrorType) :
    mapGet ((fun s => IncrementError s c)^[n] m).ErrorsByType c =
      mapGet m.ErrorsByType c + n := by
  induction n generalizing m with
  | zero => simp
  | succ j ih =>
      rw [Function.iterate_succ_apply, ih]
      show mapGet (mapIncr m.ErrorsByType c) c + (j : Int) = _
      rw [mapGet_mapIncr_same]
      push_cast
      ring

/-- C9: IncrementError with category c increments ErrorsByType at c by one,
treating an absent category as zero; iterating it n times from any state
adds n at c; every other category's count and every other registry field
are unchanged. -/
theorem recordError_increments_only_its_category (m : Metrics)
    (c : ErrorType) :
    mapGet (IncrementError m c).ErrorsByType c = mapGet m.ErrorsByType c + 1 ∧
    (∀ c2, c2 ≠ c →
      mapGet (IncrementError m c).ErrorsByType c2 = mapGet m.ErrorsByType c2) ∧
    (∀ n : Nat,
      mapGet ((fun s => IncrementError s c)^[n] m).ErrorsByType c =
        mapGet m.ErrorsByType c + n) ∧
    (IncrementError m c).CommandsTotal = m.CommandsTotal ∧
    (IncrementError m c).CommandsSuccessful = m.CommandsSuccessful ∧
    (IncrementError m c).CommandsFailed = m.CommandsFailed ∧
    (IncrementError m c).CommandsPerSecond = m.CommandsPerSecond ∧
    (IncrementError m c).APIRequestsTotal = m.APIRequestsTotal ∧
    (IncrementError m c).APIRequestsSuccessful = m.APIRequestsSuccessful ∧
    (IncrementError m c).APIRequestsFailed = m.APIRequestsFailed ∧
    (IncrementError m c).APIRequestsPerSecond = m.APIRequestsPerSecond ∧
    (IncrementError m c).APIResponseTimeSum = m.APIResponseTimeSum ∧
    (IncrementError m c).APIResponseCount = m.APIResponseCount ∧
    (IncrementError m c).BotStartTime = m.BotStartTime ∧
    (IncrementError m c).commandWindow = m.commandWindow ∧
    (IncrementError m c).apiWindow = m.apiWindow := by
  refine ⟨mapGet_mapIncr_same _ _, fun c2 h => mapGet_mapIncr_ne _ _ _ h.symm,
    fun n => iterate_incrementError n m c,
    rfl, rfl, rfl, rfl, rfl, rfl, rfl, rfl, rfl, rfl, rfl, rfl, rfl⟩

/-- Witness for C9: instantiated at the initial registry and category
rate_limit, showing the api category (initially absent, count 0) is
untouched. -/
theorem recordError_increments_only_its_category_witness :
    mapGet (IncrementError (initMetrics 0) ErrorType.rateLimit).ErrorsByType
        ErrorType.api =
      mapGet (initMetrics 0).ErrorsByType ErrorType.api :=
  (recordError_increments_only_its_category (initMetrics 0)
    ErrorType.rateLimit).2.1 ErrorType.api (by decide)

lemma mapGet_of_notMem (l : List (ErrorType × Int)) (k : ErrorType)
    (h : k ∉ l.map Prod.fst) : mapGet l k = 0 := by
  induction l with
  | nil => rfl
  | cons p rest ih =>
      simp only [List.map_cons, List.mem_cons] at h
      push_neg at h
      show (if p.1 = k then p.2 else mapGet rest k) = 0
      rw [if_neg (show ¬ p.1 = k from fun he => h.1 he.symm), ih h.2]

lemma mapGet_copyFold (l acc : List (ErrorType × Int))
    (h : (l.map Prod.fst).Nodup) (k : ErrorType) :
    mapGet (l.foldl (fun a p => mapSet a p.1 p.2) acc) k =
      if k ∈ l.map Prod.fst then mapGet l k else mapGet acc k := by
  induction l generalizing acc with
  | nil => simp
  | cons p t ih =>
      simp only [List.map_cons, List.nodup_cons] at h
      obtain ⟨hp, ht⟩ := h
      rw [List.foldl_cons, ih _ ht]
      by_cases hk : k ∈ t.map Prod.fst
      · have hne : ¬ p.1 = k := fun he => hp (he ▸ hk)
        simp [hk, mapGet, hne]
      · by_cases he : p.1 = k
        · subst he
          simp [hk, mapGet, mapGet_mapSet]
        · have hmem : k ∉ p.1 :: t.map Prod.fst := by
            simp only [List.mem_cons]
            push_neg
            exact ⟨fun hx => he hx.symm, hk⟩
          rw [if_neg hk, mapGet_mapSet, if_neg he, List.map_cons, if_neg hmem]

/-- C10: GetSummary (as a state transformer) returns the registry unchanged
in every field, and the Summary error map it returns is a fresh copy that
agrees with the registry map on every key (whenever the registry map has
no duplicate keys, which Go maps guarantee). -/
theorem getSummary_pure_observer (m : Metrics) (now : Int) :
    (GetSummaryST m now).1 = m ∧
    ((m.ErrorsByType.map Prod.fst).Nodup →
      ∀ k, mapGet (GetSummaryST m now).2.ErrorsByType k =
        mapGet m.ErrorsByType k) := by
  refine ⟨rfl, fun h k => ?_⟩
  show mapGet (m.ErrorsByType.foldl (fun a p => mapSet a p.1 p.2) []) k = _
  rw [mapGet_copyFold _ _ h k]
  by_cases hk : k ∈ m.ErrorsByType.map Prod.fst
  · simp [hk]
  · simp [hk, mapGet_of_notMem _ _ hk, mapGet]

/-- Witness for C10: after one IncrementError the registry map is
[(rate_limit, 1)], whose key list has no duplicates; the summary copy
agrees at rate_limit. -/
theorem getSummary_pure_observer_witness :
    mapGet (GetSummaryST (IncrementError (initMetrics 0) ErrorType.rateLimit)
        5).2.ErrorsByType ErrorType.rateLimit =
      mapGet (IncrementError (initMetrics 0)
        ErrorType.rateLimit).ErrorsByType ErrorType.rateLimit :=
  (getSummary_pure_observer (IncrementError (initMetrics 0)
    ErrorType.rateLimit) 5).2 (by decide) ErrorType.rateLimit

/-- The spec's HTTP-status mapping, written from the claim's words:
404 to not_found, 429 to rate_limit, every other code in 400-499 to
validation, every code at least 500 to api, anything else to internal. -/
def specHTTPCategory (statusCode : Int) : ErrorType :=
  if statusCode = 404 then ErrorType.notFound
  else if statusCode = 429 then ErrorType.rateLimit
  else if 400 ≤ statusCode ∧ statusCode ≤ 499 then ErrorType.validation
  else if 500 ≤ statusCode then ErrorType.api
  else ErrorType.internal

/-- C4: the classifier is total and pure by construction; a categorized
BotError yields its carried category and an error whose chain holds no
BotError yields internal; FromHTTPStatus realizes exactly the spec's
status-code mapping on every integer status code. -/
theorem errorClassifier_total_mapping :
    (∀ (b : BotError) (cause : Option GoError),
      classifyError (GoError.wrap b cause) = b.typ) ∧
    (∀ e : GoError, findBotError e = none →
      classifyError e = ErrorType.internal) ∧
    (∀ (statusCode : Int) (message : String),
      (FromHTTPStatus statusCode message).typ = specHTTPCategory statusCode) := by
  refine ⟨fun b cause => rfl, fun e h => by simp [classifyError, h],
    fun s msg => ?_⟩
  simp only [FromHTTPStatus, specHTTPCategory, NewNotFoundError,
    NewRateLimitError, NewValidationError, NewAPIError, NewInternalError]
  split_ifs <;> first | rfl | omega

/-- Witness for C4: a plain uncategorized error classifies as internal. -/
theorem errorClassifier_total_mapping_witness :
    classifyError (GoError.plain none) = ErrorType.internal :=
  errorClassifier_total_mapping.2.1 (GoError.plain none) rfl

/-- Counterexample for C5: IncrementAPIRequests with responseTimeMs = -5
makes APIResponseTimeSum decrease (from 0 to -5): the registry does not
clamp negative response times to zero. -/
theorem negative_latency_not_clamped :
    (IncrementAPIRequests (initMetrics 0) true (-5) 0 0).APIResponseTimeSum <
      (initMetrics 0).APIResponseTimeSum := by decide

/-- C5 (amended): IncrementAPIRequests accepts every responseTimeMs without
any rejection path and adds it unmodified to APIResponseTimeSum (which can
therefore decrease on negative input), while counting the request. -/
theorem incrementAPIRequests_accumulates_raw (m : Metrics) (s : Bool)
    (responseTimeMs t tR : Int) :
    (IncrementAPIRequests m s responseTimeMs t tR).APIResponseTimeSum =
      m.APIResponseTimeSum + responseTimeMs ∧
    (IncrementAPIRequests m s responseTimeMs t tR).APIResponseCount =
      m.APIResponseCount + 1 ∧
    (IncrementAPIRequests m s responseTimeMs t tR).APIRequestsTotal =
      m.APIRequestsTotal + 1 :=
  ⟨rfl, rfl, rfl⟩

/-- Counterexample for C8: NewRateWindow (-5) constructs a Rate Window whose
window duration is the non-positive value -5; nothing is rejected or
clamped. -/
theorem newRateWindow_accepts_nonpositive :
    (NewRateWindow (-5)).window = -5 ∧ (NewRateWindow (-5)).window ≤ 0 := by
  decide

/-- C8 (amended): NewRateWindow stores the given duration unchanged (and an
empty event list), for every duration including non-positive ones. -/
theorem newRateWindow_stores_duration (window : Int) :
    (NewRateWindow window).window = window ∧
      (NewRateWindow window).events = [] :=
  ⟨rfl, rfl⟩

/-- C6: GetAverageResponseTime returns 0 when APIResponseCount is zero,
returns APIResponseTimeSum / APIResponseCount otherwise, and after
recording three requests with latencies 10, 20, 30 ms it returns 20. -/
theorem averageResponseTime_spec :
    (∀ m : Metrics, m.APIResponseCount = 0 → GetAverageResponseTime m = 0) ∧
    (∀ m : Metrics, m.APIResponseCount ≠ 0 →
      GetAverageResponseTime m =
        (m.APIResponseTimeSum : ℚ) / (m.APIResponseCount : ℚ)) ∧
    GetAverageResponseTime
      (IncrementAPIRequests
        (IncrementAPIRequests
          (IncrementAPIRequests (initMetrics 0) true 10 0 0) true 20 0 0)
        true 30 0 0) = 20 := by
  refine ⟨fun m h => by simp [GetAverageResponseTime, h],
    fun m h => by simp [GetAverageResponseTime, h], ?_⟩
  show GetAverageResponseTime
    { (initMetrics 0) with
      APIRequestsTotal := 3
      APIRequestsSuccessful := 3
      APIResponseTimeSum := 60
      APIResponseCount := 3
      APIRequestsPerSecond :=
        (IncrementAPIRequests
          (IncrementAPIRequests
            (IncrementAPIRequests (initMetrics 0) true 10 0 0) true 20 0 0)
          true 30 0 0).APIRequestsPerSecond
      apiWindow :=
        (IncrementAPIRequests
          (IncrementAPIRequests
            (IncrementAPIRequests (initMetrics 0) true 10 0 0) true 20 0 0)
          true 30 0 0).apiWindow } = 20
  norm_num [GetAverageResponseTime]

/-- Witness for C6: the hypotheses of the two conditional parts are
discharged at the empty registry (count 0) and at a registry holding one
10 ms request (count 1). -/
theorem averageResponseTime_spec_witness :
    GetAverageResponseTime (initMetrics 0) = 0 ∧
    GetAverageResponseTime (IncrementAPIRequests (initMetrics 0) true 10 0 0) =
      (((IncrementAPIRequests (initMetrics 0) true 10 0 0).APIResponseTimeSum : ℚ) /
        ((IncrementAPIRequests (initMetrics 0) true 10 0 0).APIResponseCount : ℚ)) :=
  ⟨averageResponseTime_spec.1 (initMetrics 0) rfl,
    averageResponseTime_spec.2.1 (IncrementAPIRequests (initMetrics 0) true 10 0 0)
      (by decide)⟩

lemma foldl_count_eq_filter_length (l : List Int) (cutoff : Int) (n : Nat) :
    l.foldl (fun n event => if cutoff < event then n + 1 else n) n =
      n + (l.filter (fun event => decide (cutoff < event))).length := by
  induction l generalizing n with
  | nil => simp
  | cons a t ih =>
      by_cases h : cutoff < a
      · simp only [List.foldl_cons, if_pos h]
        rw [ih]
        rw [show (a :: t).filter (fun event => decide (cutoff < event)) =
          a :: t.filter (fun event => decide (cutoff < event)) by
            simp [List.filter_cons, h]]
        rw [List.length_cons]
        omega
      · simp only [List.foldl_cons, if_neg h]
        rw [ih]
        rw [show (a :: t).filter (fun event => decide (cutoff < event)) =
          t.filter (fun event => decide (cutoff < event)) by
            simp [List.filter_cons, h]]

/-- C7: Rate returns the number of retained events newer than
now - window, divided by the window length in seconds (which also gives
exactly 0 when no events remain); and for a fresh 60-second window,
recording one event at time 0 gives rate 1/60 immediately, and rate 0 once
61 seconds have passed. -/
theorem rate_counts_recent_over_window :
    (∀ (rw : RateWindow) (now : Int), 0 < rw.window →
      rw.Rate now =
        ((rw.events.filter
            (fun event => decide (now - rw.window < event))).length : ℚ) /
          seconds rw.window) ∧
    ((NewRateWindow 60000000000).Add 0).Rate 0 = 1 / 60 ∧
    ((NewRateWindow 60000000000).Add 0).Rate 61000000000 = 0 := by
  refine ⟨fun rw now _ => ?_, by norm_num [RateWindow.Rate, RateWindow.RateST,
      RateWindow.Add, NewRateWindow, seconds],
    by norm_num [RateWindow.Rate, RateWindow.RateST, RateWindow.Add,
      NewRateWindow, seconds]⟩
  unfold RateWindow.Rate RateWindow.RateST
  by_cases h0 : rw.events.length = 0
  · rw [List.length_eq_zero] at h0
    simp [h0]
  · simp only [h0, if_false, foldl_count_eq_filter_length, Nat.zero_add]

/-- Witness for C7: the general part instantiated at the one-event
60-second window observed at time 0 (its window is positive). -/
theorem rate_counts_recent_over_window_witness :
    ((NewRateWindow 60000000000).Add 0).Rate 0 =
      (((((NewRateWindow 60000000000).Add 0).events.filter
          (fun event =>
            decide (0 - ((NewRateWindow 60000000000).Add 0).window <
              event))).length : ℚ) /
        seconds ((NewRateWindow 60000000000).Add 0).window) :=
  rate_counts_recent_over_window.1 ((NewRateWindow 60000000000).Add 0) 0
    (by decide)

/-- C2: evaluation at the failing input.  A 60-second window holds the
single event recorded at time 0; a Rate read at time 61s reports rate 0,
yet leaves the expired event (0, with now - 0 > window) in the retained
event list: the read does not evict, contrary to the source comment that
says expired events are removed there. -/
theorem rate_read_retains_expired :
    (((NewRateWindow 60000000000).Add 0).RateST 61000000000).1.events = [0] ∧
    (((NewRateWindow 60000000000).Add 0).RateST 61000000000).2 = 0 ∧
    (61000000000 : Int) - 0 > 60000000000 := by
  refine ⟨by decide, ?_, by decide⟩
  norm_num [RateWindow.RateST, RateWindow.Add, NewRateWindow, seconds]

/-! Projection facts for GetSummary. -/

lemma getSummary_CommandsTotal (m : Metrics) (now : Int) :
    (GetSummary m now).CommandsTotal = m.CommandsTotal := rfl

lemma getSummary_CommandsSuccessful (m : Metrics) (now : Int) :
    (GetSummary m now).CommandsSuccessful = m.CommandsSuccessful := rfl

lemma getSummary_CommandsFailed (m : Metrics) (now : Int) :
    (GetSummary m now).CommandsFailed = m.CommandsFailed := rfl

lemma getSummary_APIRequestsTotal (m : Metrics) (now : Int) :
    (GetSummary m now).APIRequestsTotal = m.APIRequestsTotal := rfl

lemma getSummary_APIRequestsSuccessful (m : Metrics) (now : Int) :
    (GetSummary m now).APIRequestsSuccessful = m.APIRequestsSuccessful := rfl

lemma getSummary_APIRequestsFailed (m : Metrics) (now : Int) :
    (GetSummary m now).APIRequestsFailed = m.APIRequestsFailed := rfl

lemma getSummary_CommandSuccessRate (m : Metrics) (now : Int) :
    (GetSummary m now).CommandSuccessRate =
      if m.CommandsTotal > 0 then
        ((m.CommandsSuccessful : ℚ) / (m.CommandsTotal : ℚ)) * 100
      else 0 := rfl

lemma getSummary_APISuccessRate (m : Metrics) (now : Int) :
    (GetSummary m now).APISuccessRate =
      if m.APIRequestsTotal > 0 then
        ((m.APIRequestsSuccessful : ℚ) / (m.APIRequestsTotal : ℚ)) * 100
      else 0 := rfl

lemma successRate_bounds (succ total : Int) (hs : 0 ≤ succ)
    (hle : succ ≤ total) :
    0 ≤ (if total > 0 then ((succ : ℚ) / (total : ℚ)) * 100 else 0) ∧
      (if total > 0 then ((succ : ℚ) / (total : ℚ)) * 100 else 0) ≤ 100 := by
  split_ifs with h
  · have htot : (0 : ℚ) < (total : ℚ) := by exact_mod_cast h
    have hsq : (0 : ℚ) ≤ (succ : ℚ) := by exact_mod_cast hs
    have hd1 : (succ : ℚ) / (total : ℚ) ≤ 1 :=
      (div_le_one htot).2 (by exact_mod_cast hle)
    have hd0 : (0 : ℚ) ≤ (succ : ℚ) / (total : ℚ) :=
      div_nonneg hsq (le_of_lt htot)
    constructor
    · nlinarith
    · nlinarith
  · norm_num

/-- C3: for every sequence of recording operations from the initial
registry, the Summary produced by GetSummary has both success-rate
percentages within [0, 100], and in both counter groups the successes plus
failures do not exceed the total. -/
theorem snapshot_rates_within_bounds (startTime : Int)
    (ops : List MetricsOp) (now : Int) :
    (0 ≤ (GetSummary (runOps (initMetrics startTime) ops) now).CommandSuccessRate ∧
      (GetSummary (runOps (initMetrics startTime) ops) now).CommandSuccessRate ≤ 100) ∧
    (0 ≤ (GetSummary (runOps (initMetrics startTime) ops) now).APISuccessRate ∧
      (GetSummary (runOps (initMetrics startTime) ops) now).APISuccessRate ≤ 100) ∧
    (GetSummary (runOps (initMetrics startTime) ops) now).CommandsSuccessful +
        (GetSummary (runOps (initMetrics startTime) ops) now).CommandsFailed ≤
      (GetSummary (runOps (initMetrics startTime) ops) now).CommandsTotal ∧
    (GetSummary (runOps (initMetrics startTime) ops) now).APIRequestsSuccessful +
        (GetSummary (runOps (initMetrics startTime) ops) now).APIRequestsFailed ≤
      (GetSummary (runOps (initMetrics startTime) ops) now).APIRequestsTotal := by
  obtain ⟨h1, h2, h3, h4, h5, h6⟩ :=
    runOps_consistent ops (initMetrics startTime)
      (countersConsistent_init startTime)
  rw [getSummary_CommandSuccessRate, getSummary_APISuccessRate,
    getSummary_CommandsSuccessful, getSummary_CommandsFailed,
    getSummary_CommandsTotal, getSummary_APIRequestsSuccessful,
    getSummary_APIRequestsFailed, getSummary_APIRequestsTotal]
  exact ⟨successRate_bounds _ _ h2 (by omega),
    successRate_bounds _ _ h5 (by omega), by omega, by omega⟩

end Discogo
